import Mathlib

/-
Shallow embedding of the tourism-planner backend (src/backend/server.py).
Strings are modelled as `List Char` internally (ASCII semantics for the
Python case/whitespace predicates); fallible Python code is modelled with
`Option`/`Except`.
-/

set_option maxHeartbeats 1000000

namespace Tourism

/-- ASCII model of Python str.lower applied to one character. -/
def asciiLower (c : Char) : Char :=
  if 'A' ≤ c ∧ c ≤ 'Z' then Char.ofNat (c.toNat + 32) else c

/-- ASCII model of Python str.upper applied to one character. -/
def asciiUpper (c : Char) : Char :=
  if 'a' ≤ c ∧ c ≤ 'z' then Char.ofNat (c.toNat - 32) else c

/-- ASCII uppercase letter test, modelling Python str.isupper on one char. -/
def isAsciiUpper (c : Char) : Bool := decide ('A' ≤ c) && decide (c ≤ 'Z')

/-- ASCII lowercase letter test. -/
def isAsciiLower (c : Char) : Bool := decide ('a' ≤ c) && decide (c ≤ 'z')

/-- ASCII letter test. -/
def isAsciiAlpha (c : Char) : Bool := isAsciiUpper c || isAsciiLower c

/-- Python whitespace class: the characters recognised by str.split, str.strip
and the regex class \s (ASCII part). -/
def isPyWs (c : Char) : Bool :=
  c = ' ' || c = '\t' || c = '\n' || c = '\r' || c.toNat = 11 || c.toNat = 12

/-- Characters matched by the regex character class [a-z\s]. -/
def isSpanChar (c : Char) : Bool := isAsciiLower c || isPyWs c

/-- The punctuation set of the Python calls word.strip(".,?!"). -/
def isPunct (c : Char) : Bool := c = '.' || c = ',' || c = '?' || c = '!'

/-- Python str.strip(): remove leading and trailing whitespace. -/
def stripWs (s : List Char) : List Char :=
  ((s.dropWhile isPyWs).reverse.dropWhile isPyWs).reverse

/-- Python word.strip(".,?!"): remove leading and trailing punctuation. -/
def stripPunct (s : List Char) : List Char :=
  ((s.dropWhile isPunct).reverse.dropWhile isPunct).reverse

/-- Removal of trailing punctuation only (used by the claim-side C6 reading). -/
def dropTrailingPunct (s : List Char) : List Char :=
  (s.reverse.dropWhile isPunct).reverse

/-- Accumulator loop for Python str.split(). -/
def splitWsGo (cur : List Char) : List Char → List (List Char)
  | [] => if cur = [] then [] else [cur.reverse]
  | c :: cs =>
    if isPyWs c then
      if cur = [] then splitWsGo [] cs else cur.reverse :: splitWsGo [] cs
    else splitWsGo (c :: cur) cs

/-- Python str.split() with no argument: split on whitespace runs. -/
def splitWs (s : List Char) : List (List Char) := splitWsGo [] s

/-- Python " ".join(xs) style joining with a separator. -/
def joinWith (sep : List Char) : List (List Char) → List Char
  | [] => []
  | [x] => x
  | x :: y :: t => x ++ sep ++ joinWith sep (y :: t)

/-- One step of Python str.title() over ASCII letters: `prevAlpha` records
whether the previous character was a letter. -/
def pyTitleGo (prevAlpha : Bool) : List Char → List Char
  | [] => []
  | c :: cs =>
    if isAsciiAlpha c then
      (if prevAlpha then asciiLower c else asciiUpper c) :: pyTitleGo true cs
    else c :: pyTitleGo false cs

/-- Python str.title() (ASCII model). -/
def pyTitle (s : List Char) : List Char := pyTitleGo false s

/-- Fuel-driven loop for Python s.replace(sub, ""): each step consumes at
least one character, so fuel = length of the string suffices. Structural
recursion on the fuel keeps the definition kernel-reducible. -/
def replaceAllGo (sub : List Char) : Nat → List Char → List Char
  | 0, s => s
  | _ + 1, [] => []
  | fuel + 1, c :: cs =>
    if sub ≠ [] ∧ sub.isPrefixOf (c :: cs) then
      replaceAllGo sub fuel ((c :: cs).drop sub.length)
    else c :: replaceAllGo sub fuel cs

/-- Python s.replace(sub, ""): delete every non-overlapping occurrence of
`sub`, scanning left to right. -/
def replaceAll (sub s : List Char) : List Char := replaceAllGo sub s.length s

/-- Python substring containment `sub in s`. -/
def isSubstrOf (sub : List Char) : List Char → Bool
  | [] => sub.isPrefixOf ([] : List Char)
  | c :: cs => sub.isPrefixOf (c :: cs) || isSubstrOf sub cs

/-
The regex patterns of extract_place_name. Every pattern in the source has
the shape LITERAL ++ ([a-z\s]+) ++ ENDING where ENDING is ",", "?", "$"
(end of input) or nothing, so re.search over such a pattern is: find the
leftmost position where the literal matches, take the maximal greedy run of
[a-z\s] characters after it (non-empty), and require the ending right after
the run. Backtracking never shortens the run because the run's characters
can never satisfy the ending.
-/

/-- The four ending shapes of the source's regex patterns. -/
inductive PatEnd where
  | comma
  | question
  | eos
  | free

/-- One phrase pattern: a literal text followed by the capture group
([a-z\s]+) and an ending. -/
structure PhrasePattern where
  litText : List Char
  ending : PatEnd

/-- Match a phrase pattern anchored at the start of `cs`, returning the
captured group on success. -/
def matchAtStart (p : PhrasePattern) (cs : List Char) : Option (List Char) :=
  if p.litText.isPrefixOf cs then
    let rest := cs.drop p.litText.length
    let run := rest.takeWhile isSpanChar
    if run = [] then none
    else
      match p.ending with
      | PatEnd.free => some run
      | PatEnd.eos => if rest.drop run.length = [] then some run else none
      | PatEnd.comma => if (rest.drop run.length).head? = some ',' then some run else none
      | PatEnd.question => if (rest.drop run.length).head? = some '?' then some run else none
  else none

/-- Python re.search for one phrase pattern: try every start position left
to right. -/
def searchCapture (p : PhrasePattern) : List Char → Option (List Char)
  | [] => matchAtStart p []
  | c :: cs =>
    match matchAtStart p (c :: cs) with
    | some r => some r
    | none => searchCapture p cs

/-- The ordered pattern list of extract_place_name (source lines 344-361). -/
def patterns : List PhrasePattern := [
  ⟨ String.toList "going to ", PatEnd.comma⟩,
  ⟨ String.toList "going to ", PatEnd.question⟩,
  ⟨ String.toList "going to ", PatEnd.eos⟩,
  ⟨ String.toList "to ", PatEnd.comma⟩,
  ⟨ String.toList "to ", PatEnd.question⟩,
  ⟨ String.toList "to ", PatEnd.eos⟩,
  ⟨ String.toList "visit ", PatEnd.free⟩,
  ⟨ String.toList "about ", PatEnd.free⟩,
  ⟨ String.toList "search ", PatEnd.free⟩,
  ⟨ String.toList "find ", PatEnd.free⟩,
  ⟨ String.toList "what's the weather in ", PatEnd.free⟩,
  ⟨ String.toList "weather in ", PatEnd.free⟩,
  ⟨ String.toList "places to visit in ", PatEnd.free⟩,
  ⟨ String.toList "attractions in ", PatEnd.free⟩,
  ⟨ String.toList "what can i do in ", PatEnd.free⟩,
  ⟨ String.toList "tell me about ", PatEnd.free⟩
]

/-- First-match-wins over the ordered pattern list. -/
def firstPatternCapture : List PhrasePattern → List Char → Option (List Char)
  | [], _ => none
  | p :: ps, cs =>
    match searchCapture p cs with
    | some r => some r
    | none => firstPatternCapture ps cs

/-- The stop-word list of extract_place_name (source lines 368-379),
in source order. -/
def stop_words : List (List Char) := [
  String.toList "what is the temperature there",
  String.toList "and what are the places i can visit",
  String.toList "lets plan my trip",
  String.toList "what's the weather",
  String.toList "weather and",
  String.toList "attractions and",
  String.toList "for my trip",
  String.toList "today",
  String.toList "now",
  String.toList "right now"
]

/-- The stop-word cleanup loop: place = place.replace(word, "").strip() for
each stop word in order. -/
def removeStopWords (place : List Char) : List Char :=
  stop_words.foldl (fun acc w => stripWs (replaceAll w acc)) place

/-- The gazetteer common_places of extract_place_name (source lines 404-425),
in source (insertion) order. -/
def common_places : List (List Char × String) := [
  (String.toList "bangalore", "Bangalore"),
  (String.toList "paris", "Paris"),
  (String.toList "london", "London"),
  (String.toList "new york", "New York"),
  (String.toList "tokyo", "Tokyo"),
  (String.toList "dubai", "Dubai"),
  (String.toList "singapore", "Singapore"),
  (String.toList "sydney", "Sydney"),
  (String.toList "mumbai", "Mumbai"),
  (String.toList "delhi", "Delhi"),
  (String.toList "berlin", "Berlin"),
  (String.toList "rome", "Rome"),
  (String.toList "barcelona", "Barcelona"),
  (String.toList "amsterdam", "Amsterdam"),
  (String.toList "bali", "Bali"),
  (String.toList "thailand", "Thailand"),
  (String.toList "malaysia", "Malaysia"),
  (String.toList "usa", "USA"),
  (String.toList "uk", "UK"),
  (String.toList "uae", "UAE")
]

/-- The capitalization-fallback filter of extract_place_name (source line
392): word[0].isupper() and len(word) > 2 and not word.startswith("I"). -/
def capQualified (w : List Char) : Bool :=
  match w with
  | [] => false
  | c :: _ => isAsciiUpper c && decide (w.length > 2) && !(c = 'I')

/-- extract_place_name (source lines 336-432). `none` models the IndexError
raised by words[-1] when the input splits into no words and no earlier stage
produced a result. -/
def extract_place_name (user_input : String) : Option String :=
  let cs := user_input.toList
  let input_lower := cs.map asciiLower
  match firstPatternCapture patterns input_lower with
  | some g =>
    let place := removeStopWords (stripWs g)
    let place := pyTitle (joinWith [' '] (splitWs place))
    some (if place = [] then String.mk (stripWs cs) else String.mk place)
  | none =>
    let words := splitWs cs
    let place_words := (words.filter capQualified).map stripPunct
    if place_words ≠ [] then
      some (String.mk (joinWith [' '] (place_words.take 3)))
    else
      match words.getLast? with
      | none => none
      | some w =>
        let last_word := stripPunct w
        if last_word ≠ [] ∧ last_word.length > 2 ∧ isAsciiUpper (last_word.headD ' ') then
          some (String.mk (pyTitle last_word))
        else
          match common_places.find? (fun kv => isSubstrOf kv.1 input_lower) with
          | some kv => some kv.2
          | none => some (String.mk (pyTitle (stripWs cs)))

/-
Data model of the provider responses and agent results. A transport error,
timeout, non-2xx status or JSON parse failure — everything that makes the
Python requests/json calls raise — is the Except.error case; Except.ok
carries the parsed payload the source reads fields from.
-/

/-- One geocoding candidate as read by geo_agent: lat/lon after float
conversion, and the optional display_name field. -/
structure NominatimItem where
  lat : ℚ
  lon : ℚ
  display_name : Option String

/-- Result dictionary shapes constructed by geo_agent. -/
inductive GeoResult where
  | found (lat lon : ℚ) (display_name : String)
  | notFound
  | error (msg : String)

/-- Status test used by the orchestrator: geo_result.get("status") == "found". -/
def GeoResult.isFound : GeoResult → Bool
  | GeoResult.found _ _ _ => true
  | _ => false

/-- geo_agent (source lines 53-83). -/
def geo_agent (place_name : String) (resp : Except String (List NominatimItem)) : GeoResult :=
  match resp with
  | Except.error e => GeoResult.error e
  | Except.ok [] => GeoResult.notFound
  | Except.ok (place_data :: _) =>
    GeoResult.found place_data.lat place_data.lon (place_data.display_name.getD place_name)

/-- The current_weather block as read by weather_agent: only the temperature
field is accessed, with default 0 when the key is absent. -/
structure CurrentWeatherData where
  temperature : Option ℚ

/-- The hourly block as read by weather_agent; each field is an optional
array (absent key modelled as none). -/
structure HourlyData where
  precipitation_probability : Option (List ℚ)
  relativehumidity_2m : Option (List ℚ)
  windspeed_10m : Option (List ℚ)

/-- A parsed weather response body. -/
structure WeatherJson where
  current_weather : Option CurrentWeatherData
  hourly : Option HourlyData

/-- Result dictionary shapes constructed by weather_agent. -/
inductive WeatherResult where
  | success (temperature precipitation_prob humidity windspeed : ℚ)
  | error (msg : String)

/-- Status test: weather_result.get("status") == "success". -/
def WeatherResult.isSuccess : WeatherResult → Bool
  | WeatherResult.success _ _ _ _ => true
  | WeatherResult.error _ => false

/-- Python round() to the nearest integer, ties to even, on rationals:
f is the floor of q and rnum the numerator of the fractional part over
q.den, so r < 1/2 is 2 * rnum < den. Integer arithmetic on num/den keeps
the definition kernel-reducible. -/
def pyRound0 (q : ℚ) : ℤ :=
  let f : ℤ := q.num / q.den
  let rnum : ℤ := q.num - f * q.den
  if 2 * rnum < (q.den : ℤ) then f
  else if (q.den : ℤ) < 2 * rnum then f + 1
  else if f % 2 = 0 then f else f + 1

/-- Python round(x, 1) on rationals: round 10 * x and divide back by 10. -/
def round1 (q : ℚ) : ℚ := Rat.divInt (pyRound0 (Rat.divInt (q.num * 10) (q.den : ℤ))) 10

/-- Python x[0] if x else 0 over a numeric list. -/
def listHead0 : List ℚ → ℚ
  | [] => 0
  | x :: _ => x

/-- weather_agent (source lines 86-127). -/
def weather_agent (resp : Except String WeatherJson) : WeatherResult :=
  match resp with
  | Except.error e => WeatherResult.error e
  | Except.ok data =>
    let temperature : ℚ :=
      match data.current_weather with
      | some cw => cw.temperature.getD 0
      | none => 0
    let precip_probs : List ℚ :=
      match data.hourly with
      | some h => h.precipitation_probability.getD []
      | none => []
    let current_precip := listHead0 precip_probs
    let humidity : ℚ :=
      match data.hourly with
      | some h => listHead0 (h.relativehumidity_2m.getD [])
      | none => 0
    let wind_speed : ℚ :=
      match data.hourly with
      | some h => listHead0 (h.windspeed_10m.getD [])
      | none => 0
    WeatherResult.success (round1 temperature) (round1 current_precip)
      (round1 humidity) (round1 wind_speed)

/-
Wikipedia URL generation (source lines 130-178) and the places agent
(source lines 181-239).
-/

/-- UTF-8 encoding of one code point, as a list of byte values. -/
def utf8Encode (n : Nat) : List Nat :=
  if n < 128 then [n]
  else if n < 2048 then [192 + n / 64, 128 + n % 64]
  else if n < 65536 then [224 + n / 4096, 128 + (n / 64) % 64, 128 + n % 64]
  else [240 + n / 262144, 128 + (n / 4096) % 64, 128 + (n / 64) % 64, 128 + n % 64]

/-- Uppercase hexadecimal digit. -/
def hexDigit (n : Nat) : Char :=
  if n < 10 then Char.ofNat (48 + n) else Char.ofNat (55 + n)

/-- Bytes urllib.parse.quote leaves unescaped with the default safe="/":
ALPHA, DIGIT, "_.-~" and "/". -/
def quoteSafeByte (b : Nat) : Bool :=
  (decide (48 ≤ b) && decide (b ≤ 57)) || (decide (65 ≤ b) && decide (b ≤ 90)) ||
  (decide (97 ≤ b) && decide (b ≤ 122)) ||
  b = 45 || b = 46 || b = 95 || b = 126 || b = 47

/-- Percent-encode a byte list. -/
def quoteBytes : List Nat → List Char
  | [] => []
  | b :: bs =>
    if quoteSafeByte b then Char.ofNat b :: quoteBytes bs
    else '%' :: hexDigit (b / 16) :: hexDigit (b % 16) :: quoteBytes bs

/-- urllib.parse.quote with the default safe characters. -/
def pyQuote (s : String) : String :=
  String.mk (quoteBytes (s.toList.foldr (fun c acc => utf8Encode c.toNat ++ acc) []))

/-- Python s.replace(' ', '_'). -/
def spaceToUnderscore (s : List Char) : List Char :=
  s.map (fun c => if c = ' ' then '_' else c)

/-- Python wikipedia_tag.split(":", 1) when a colon is present. -/
def splitFirstColon : List Char → Option (List Char × List Char)
  | [] => none
  | c :: cs =>
    if c = ':' then some ([], cs)
    else (splitFirstColon cs).map (fun p => (c :: p.1, p.2))

/-- The name_mappings table of generate_wikipedia_url (source lines 154-171). -/
def name_mappings : List (String × String) := [
  ("Lalbagh", "Lalbagh Botanical Garden"),
  ("Cubbon Park", "Cubbon Park"),
  ("Bangalore Palace", "Bangalore Palace"),
  ("Bannerghatta National Park", "Bannerghatta National Park"),
  ("Jawaharlal Nehru Planetarium", "Jawaharlal Nehru Planetarium, Bangalore"),
  ("MG Road", "Mahatma Gandhi Road, Bangalore"),
  ("Commercial Street", "Commercial Street, Bangalore"),
  ("Brigade Road", "Brigade Road"),
  ("UB City", "UB City"),
  ("Vidhana Soudha", "Vidhana Soudha"),
  ("Tipu Sultan's Summer Palace", "Tipu Sultan's Summer Palace"),
  ("Bull Temple", "Bull Temple"),
  ("ISKCON Temple", "ISKCON Temple Bangalore"),
  ("St. Mary's Basilica", "St. Mary's Basilica, Bangalore"),
  ("Bangalore Fort", "Bangalore Fort"),
  ("Lalbagh Glasshouse", "Lalbagh Botanical Garden")
]

/-- The name-based fallback of generate_wikipedia_url (source lines 150-178). -/
def wikiUrlFromName (place_name : String) : String :=
  let clean_name := String.mk (stripWs place_name.toList)
  let wiki_name := (name_mappings.lookup clean_name).getD clean_name
  "https://en.wikipedia.org/wiki/" ++ pyQuote (String.mk (spaceToUnderscore wiki_name.toList))

/-- generate_wikipedia_url (source lines 130-178). -/
def generate_wikipedia_url (place_name : String) (tags : List (String × String)) : String :=
  match tags.lookup "wikipedia" with
  | some wikipedia_tag =>
    if wikipedia_tag.toList ≠ [] then
      match splitFirstColon wikipedia_tag.toList with
      | some p =>
        "https://" ++ String.mk p.1 ++ ".wikipedia.org/wiki/" ++
          pyQuote (String.mk (spaceToUnderscore p.2))
      | none =>
        "https://en.wikipedia.org/wiki/" ++
          pyQuote (String.mk (spaceToUnderscore wikipedia_tag.toList))
    else wikiUrlFromName place_name
  | none => wikiUrlFromName place_name

/-- One Overpass element as read by places_agent: only its tags dictionary
is accessed. -/
structure OverpassElement where
  tags : List (String × String)

/-- Result shapes constructed by places_agent; a kept place is the dict
literal with keys "name" and "wikipedia_url" in that order. -/
inductive PlacesResult where
  | success (places : List (List (String × String)))
  | error (msg : String)

/-- The collection loop of places_agent (source lines 215-231): membership
is tested on the raw name against the set of trimmed names, the stored
entry and the set record the trimmed name, and the loop breaks once five
entries are collected. -/
def placesLoop : List OverpassElement → List (List (String × String)) → List String →
    List (List (String × String))
  | [], places, _ => places
  | element :: rest, places, seen_places =>
    match element.tags.lookup "name" with
    | some name =>
      if name ≠ "" ∧ ¬ (seen_places.contains name = true) then
        let wikipedia_url := generate_wikipedia_url name element.tags
        let trimmed := String.mk (stripWs name.toList)
        let places' := places ++ [[("name", trimmed), ("wikipedia_url", wikipedia_url)]]
        let seen' := seen_places ++ [trimmed]
        if places'.length ≥ 5 then places' else placesLoop rest places' seen'
      else
        if places.length ≥ 5 then places else placesLoop rest places seen_places
    | none =>
      if places.length ≥ 5 then places else placesLoop rest places seen_places

/-- places_agent (source lines 181-239). -/
def places_agent (resp : Except String (List OverpassElement)) : PlacesResult :=
  match resp with
  | Except.error e => PlacesResult.error e
  | Except.ok elements => PlacesResult.success ((placesLoop elements [] []).take 5)

/-- Names of the returned entries, for stating dedup properties. -/
def placesNames : PlacesResult → List String
  | PlacesResult.success places => places.map (fun pd => (pd.lookup "name").getD "")
  | PlacesResult.error _ => []

/-- Python truthy dict access tags.get(key): a present but empty value is
falsy, like an absent key. -/
def truthyGet (tags : List (String × String)) (key : String) : Option String :=
  match tags.lookup key with
  | some v => if v = "" then none else some v
  | none => none

/-- Stage of get_place_category starting at the building check (source
lines 271-276). -/
def categoryFromBuilding (tags : List (String × String)) : String :=
  match truthyGet tags "building" with
  | some building =>
    if building ∈ (["church", "cathedral", "temple", "mosque"] : List String) then
      "Religious Site"
    else "Tourist Attraction"
  | none => "Tourist Attraction"

/-- Stage of get_place_category starting at the leisure check (source
lines 264-269). -/
def categoryFromLeisure (tags : List (String × String)) : String :=
  match truthyGet tags "leisure" with
  | some leisure =>
    if leisure ∈ (["park", "garden", "nature_reserve"] : List String) then "Park & Nature"
    else if leisure ∈ (["stadium", "sports_centre", "arena"] : List String) then
      "Sports & Recreation"
    else categoryFromBuilding tags
  | none => categoryFromBuilding tags

/-- Stage of get_place_category starting at the amenity check (source
lines 257-262). -/
def categoryFromAmenity (tags : List (String × String)) : String :=
  match truthyGet tags "amenity" with
  | some amenity =>
    if amenity ∈ (["theatre", "cinema", "concert_hall"] : List String) then "Arts & Culture"
    else if amenity ∈ (["restaurant", "cafe"] : List String) then "Food & Dining"
    else categoryFromLeisure tags
  | none => categoryFromLeisure tags

/-- Stage of get_place_category starting at the historic check (source
lines 254-255). -/
def categoryFromHistoric (tags : List (String × String)) : String :=
  match truthyGet tags "historic" with
  | some _ => "Historic Site"
  | none => categoryFromAmenity tags

/-- get_place_category (source lines 241-276). A tourism value outside all
sub-lists falls through to the later checks, mirroring the source's
if-chain without a final else inside the tourism block. -/
def get_place_category (tags : List (String × String)) : String :=
  match truthyGet tags "tourism" with
  | some tourism =>
    if tourism ∈ (["museum", "gallery"] : List String) then "Museum & Gallery"
    else if tourism ∈ (["attraction", "theme_park", "amusement_park"] : List String) then
      "Attraction & Entertainment"
    else if tourism ∈ (["zoo", "aquarium"] : List String) then "Wildlife & Nature"
    else if tourism ∈ (["viewpoint", "artwork", "monument"] : List String) then
      "Landmark & Viewpoint"
    else categoryFromHistoric tags
  | none => categoryFromHistoric tags

/-
The orchestrator tourism_agent (source lines 434-510).
-/

/-- The three outbound lookups, abstracted as response oracles: geocoding is
keyed by the searched place name, weather and places by the coordinates. -/
structure Providers where
  geo : String → Except String (List NominatimItem)
  weather : ℚ → ℚ → Except String WeatherJson
  places : ℚ → ℚ → Except String (List OverpassElement)

/-- The response dictionary of tourism_agent; the geo-failure branch builds
the dict without place/coordinates/places_data keys (the none cases). -/
structure TourismResult where
  success : Bool
  message : String
  place : Option String
  coordinates : Option (ℚ × ℚ)
  places_data : Option (List (List (String × String)))

/-- Decimal rendering of the one-decimal rationals that reach the message
f-strings (Python prints round(x, 1) of a float like 21.3, of an int like 21). -/
def renderTenths (q : ℚ) : String :=
  if q.den = 1 then toString q.num
  else
    let sign := if q.num < 0 then "-" else ""
    let n := q.num.natAbs * 10 / q.den
    sign ++ toString (n / 10) ++ "." ++ toString (n % 10)

/-- Python s.replace(sub, "") on strings. -/
def pyReplaceStr (s sub : String) : String := String.mk (replaceAll sub.toList s.toList)

/-- tourism_agent (source lines 434-510). An Except.error models an
exception escaping the function: the IndexError of extract_place_name on
wordless input, and the UnboundLocalError at the return statement when the
local `places` was never assigned because the places branch did not take
the success-with-nonempty-list path. -/
def tourism_agent (P : Providers) (user_input : String) : Except String TourismResult :=
  match extract_place_name user_input with
  | none => Except.error "IndexError: list index out of range"
  | some place_name =>
    match geo_agent place_name (P.geo place_name) with
    | GeoResult.notFound =>
      Except.ok ⟨false,
        "I don't know if the place '" ++ place_name ++
          "' exists. Please try a different location.", none, none, none⟩
    | GeoResult.error _ =>
      Except.ok ⟨false,
        "I don't know if the place '" ++ place_name ++
          "' exists. Please try a different location.", none, none, none⟩
    | GeoResult.found lat lon display_name =>
      let user_lower := String.mk (user_input.toList.map asciiLower)
      let asks_for_weather :=
        (["temperature", "weather", "climate", "forecast", "rain", "hot", "cold"] :
            List String).any (fun term => isSubstrOf term.toList user_lower.toList)
      let asks_for_places :=
        (["places", "visit", "attractions", "plan my trip", "see", "do", "tourist",
            "sightseeing"] : List String).any
          (fun term => isSubstrOf term.toList user_lower.toList)
      let asks_for_weather := true
      let asks_for_places := true
      let weather_info :=
        if asks_for_weather then
          match weather_agent (P.weather lat lon) with
          | WeatherResult.success temperature precipitation_prob _ _ =>
            "In " ++ display_name ++ " it's currently " ++ renderTenths temperature ++
              "Â°C with a chance of " ++ renderTenths precipitation_prob ++ "% to rain."
          | WeatherResult.error _ => ""
        else ""
      match places_agent (P.places lat lon) with
      | PlacesResult.success ps =>
        if ps ≠ [] then
          let place_names := (ps.take 5).map (fun place => (place.lookup "name").getD "")
          let places_list := String.intercalate "\n" place_names
          let places_info :=
            "In " ++ display_name ++ " these are the places you can go,\n" ++ places_list
          let response :=
            if weather_info ≠ "" ∧ places_info ≠ "" then
              weather_info ++ " And these are the places you can go:\n" ++
                pyReplaceStr places_info
                  ("In " ++ display_name ++ " these are the places you can go,\n")
            else weather_info ++ places_info
          Except.ok ⟨true, response, some display_name, some (lat, lon), some ps⟩
        else
          Except.error "UnboundLocalError: local variable 'places' referenced before assignment"
      | PlacesResult.error _ =>
        Except.error "UnboundLocalError: local variable 'places' referenced before assignment"

/-
Claim-side definitions: these formalise the wording of the spec claims
(not the source) and are compared against the source-derived functions.
-/

/-- Claim C7's reading of the cleanup: strip fillers only when they are a
trailing phrase of the span, one pass over the fixed list in order. -/
def stripTrailingFillers (place : List Char) : List Char :=
  stop_words.foldl
    (fun acc w =>
      if w.isSuffixOf acc then stripWs (acc.take (acc.length - w.length)) else acc)
    place

/-- Extraction as claim C7 words it: the span captured by the first matching
pattern against the lowercased input, trailing filler phrases stripped,
internal whitespace collapsed, each word title-cased. -/
def claimC7_extract (user_input : String) : Option String :=
  match patterns.findSome? (fun p => searchCapture p (user_input.toList.map asciiLower)) with
  | some g =>
    some (String.mk (pyTitle (joinWith [' '] (splitWs (stripTrailingFillers (stripWs g))))))
  | none => none

/-- Extraction amended for C7: the captured span with each filler phrase of
the fixed list removed wherever it occurs (substring replacement applied in
list order, trimming after each), whitespace collapsed, words title-cased;
the trimmed raw input replaces an empty result. -/
def amendedC7_extract (user_input : String) : Option String :=
  match patterns.findSome? (fun p => searchCapture p (user_input.toList.map asciiLower)) with
  | some g =>
    let place := pyTitle (joinWith [' '] (splitWs (removeStopWords (stripWs g))))
    some (if place = [] then String.mk (stripWs user_input.toList) else String.mk place)
  | none => none

/-- Word filter as claim C6 words it: starts with an uppercase letter,
longer than 2 characters, and is not the pronoun "I". -/
def pronounQualified (w : List Char) : Bool :=
  isAsciiUpper (w.headD ' ') && decide (w.length > 2) && !(w = ['I'])

/-- The capitalization fallback as claim C6 words it: join the first 3
qualifying words, each stripped of trailing punctuation. -/
def claimC6_extract (user_input : String) : Option String :=
  let words := splitWs user_input.toList
  let place_words := (words.filter pronounQualified).map dropTrailingPunct
  if place_words = [] then none
  else some (String.mk (joinWith [' '] (place_words.take 3)))

/-- Word filter amended for C6: starts with an uppercase letter, longer
than 2 characters, and does not start with the capital letter I. -/
def amendedCapQualified (w : List Char) : Bool :=
  isAsciiUpper (w.headD ' ') && decide (w.length > 2) && !(w.headD ' ' = 'I')

/-- The capitalization fallback amended for C6. -/
def amendedC6_extract (user_input : String) : Option String :=
  let words := splitWs user_input.toList
  let place_words := (words.filter amendedCapQualified).map dropTrailingPunct
  if place_words = [] then none
  else some (String.mk (joinWith [' '] (place_words.take 3)))

/-- The kept names as amended for C2: an element is kept iff its raw name is
non-empty and differs from the trimmed names of all previously kept entries;
the stored name is the trimmed one; collection stops at five. -/
def amendedC2_go (seen : List String) : List OverpassElement → List String
  | [] => []
  | element :: rest =>
    match element.tags.lookup "name" with
    | some name =>
      if name ≠ "" ∧ ¬ (seen.contains name = true) then
        let trimmed := String.mk (stripWs name.toList)
        trimmed :: (if seen.length + 1 ≥ 5 then [] else amendedC2_go (seen ++ [trimmed]) rest)
      else amendedC2_go seen rest
    | none => amendedC2_go seen rest

/-- Names kept from a provider element list, under the amended C2 reading. -/
def amendedC2_names (elements : List OverpassElement) : List String :=
  amendedC2_go [] elements

/-- One row of the spec's tag-to-category table: (tag key, accepted values,
category); an empty value list means any truthy value of the key matches. -/
def rowMatch (tags : List (String × String)) (row : String × List String × String) :
    Option String :=
  match truthyGet tags row.1 with
  | some v => if row.2.1 = [] ∨ v ∈ row.2.1 then some row.2.2 else none
  | none => none

/-- Suffix of the spec table starting at the building row. -/
def tableBuilding : List (String × List String × String) :=
  [("building", (["church", "cathedral", "temple", "mosque"], "Religious Site"))]

/-- Suffix of the spec table starting at the leisure rows. -/
def tableLeisure : List (String × List String × String) :=
  ("leisure", (["park", "garden", "nature_reserve"], "Park & Nature")) ::
    ("leisure", (["stadium", "sports_centre", "arena"], "Sports & Recreation")) ::
      tableBuilding

/-- Suffix of the spec table starting at the amenity rows. -/
def tableAmenity : List (String × List String × String) :=
  ("amenity", (["theatre", "cinema", "concert_hall"], "Arts & Culture")) ::
    ("amenity", (["restaurant", "cafe"], "Food & Dining")) ::
      tableLeisure

/-- Suffix of the spec table starting at the historic row. -/
def tableHistoric : List (String × List String × String) :=
  ("historic", ([], "Historic Site")) :: tableAmenity

/-- The tag-to-category table as the spec words it, in priority order:
tourism sub-mappings first, then historic, amenity, leisure, building. -/
def categoryTable : List (String × List String × String) :=
  ("tourism", (["museum", "gallery"], "Museum & Gallery")) ::
    ("tourism", (["attraction", "theme_park", "amusement_park"], "Attraction & Entertainment")) ::
      ("tourism", (["zoo", "aquarium"], "Wildlife & Nature")) ::
        ("tourism", (["viewpoint", "artwork", "monument"], "Landmark & Viewpoint")) ::
          tableHistoric

/-- Category derivation as the spec words it: first matching table row wins,
default "Tourist Attraction". -/
def specCategory (tags : List (String × String)) : String :=
  (categoryTable.findSome? (rowMatch tags)).getD "Tourist Attraction"

/-- Name of one kept place entry. -/
def nameOf (pd : List (String × String)) : String := (pd.lookup "name").getD ""

/-- Entry list of a places result. -/
def placesEntries : PlacesResult → List (List (String × String))
  | PlacesResult.success places => places
  | PlacesResult.error _ => []

/-- The concrete provider element list of the C2 counterexample: two
elements whose raw names are equal and carry trailing whitespace. -/
def dupNameElements : List OverpassElement := [⟨[("name", "Taj ")]⟩, ⟨[("name", "Taj ")]⟩]

/-- The concrete element of the C8 counterexample: a named museum node. -/
def museumElement : OverpassElement := ⟨[("tourism", "museum"), ("name", "City Museum")]⟩

/-
Helper lemmas.
-/

theorem firstPatternCapture_eq_findSome (ps : List PhrasePattern) (cs : List Char) :
    firstPatternCapture ps cs = ps.findSome? (fun p => searchCapture p cs) := by
  induction ps with
  | nil => rfl
  | cons p ps ih =>
    rw [List.findSome?_cons]
    unfold firstPatternCapture
    cases searchCapture p cs <;> simp [ih]

theorem capQualified_eq_amended (w : List Char) : capQualified w = amendedCapQualified w := by
  cases w <;> rfl

theorem isPunct_false_of_upper (c : Char) (h : isAsciiUpper c = true) : isPunct c = false := by
  cases hp : isPunct c
  · rfl
  · exfalso
    have hc : ((c = '.' ∨ c = ',') ∨ c = '?') ∨ c = '!' := by
      simpa [isPunct, decide_eq_true_iff] using hp
    rcases hc with ((rfl | rfl) | rfl) | rfl <;> simp [isAsciiUpper] at h

theorem stripPunct_eq_dropTrailing (w : List Char) (h : amendedCapQualified w = true) :
    stripPunct w = dropTrailingPunct w := by
  cases w with
  | nil => rfl
  | cons c cs =>
    have hu : isAsciiUpper c = true := by
      simp only [amendedCapQualified, Bool.and_eq_true, List.headD_cons] at h
      exact h.1.1
    have hc : isPunct c = false := isPunct_false_of_upper c hu
    unfold stripPunct dropTrailingPunct
    rw [List.dropWhile_cons, hc]
    simp

theorem stripPunct_ne_nil_of_qualified (w : List Char) (h : amendedCapQualified w = true) :
    stripPunct w ≠ [] := by
  cases w with
  | nil => simp [amendedCapQualified, isAsciiUpper] at h
  | cons c cs =>
    have hu : isAsciiUpper c = true := by
      simp only [amendedCapQualified, Bool.and_eq_true, List.headD_cons] at h
      exact h.1.1
    have hc : isPunct c = false := isPunct_false_of_upper c hu
    rw [stripPunct_eq_dropTrailing (c :: cs) h]
    unfold dropTrailingPunct
    intro hnil
    have : (c :: cs).reverse.dropWhile isPunct = [] := by
      cases hdw : (c :: cs).reverse.dropWhile isPunct
      · rfl
      · rw [hdw] at hnil
        simp at hnil
    rw [List.dropWhile_eq_nil_iff] at this
    have hcmem : c ∈ (c :: cs).reverse := by simp
    have := this c hcmem
    rw [hc] at this
    exact Bool.false_ne_true this

theorem joinWith_ne_nil (sep : List Char) (x : List Char) (xs : List (List Char))
    (h : x ≠ []) : joinWith sep (x :: xs) ≠ [] := by
  cases xs with
  | nil => simpa [joinWith] using h
  | cons y t =>
    simp only [joinWith]
    intro hnil
    rw [List.append_assoc] at hnil
    rcases List.append_eq_nil.mp hnil with ⟨h1, _⟩
    exact h h1

theorem pyTitleGo_length (b : Bool) (l : List Char) : (pyTitleGo b l).length = l.length := by
  induction l generalizing b with
  | nil => rfl
  | cons c cs ih =>
    unfold pyTitleGo
    by_cases h : isAsciiAlpha c = true <;> simp [h, ih]

theorem pyTitle_ne_nil (l : List Char) (h : l ≠ []) : pyTitle l ≠ [] := by
  intro hnil
  apply h
  have hlen := pyTitleGo_length false l
  unfold pyTitle at hnil
  rw [hnil] at hlen
  exact List.length_eq_zero.mp hlen.symm

theorem exists_nonWs_dropWhile (l : List Char) (h : ∃ c ∈ l, isPyWs c = false) :
    ∃ c ∈ l.dropWhile isPyWs, isPyWs c = false := by
  induction l with
  | nil => simpa using h
  | cons a as ih =>
    cases ha : isPyWs a with
    | true =>
      rw [List.dropWhile_cons, if_pos ha]
      apply ih
      rcases h with ⟨c, hc, hcw⟩
      rcases List.mem_cons.mp hc with rfl | hmem
      · rw [ha] at hcw
        exact absurd hcw (by simp)
      · exact ⟨c, hmem, hcw⟩
    | false =>
      rw [List.dropWhile_cons, if_neg (by simp [ha])]
      exact ⟨a, by simp, ha⟩

theorem stripWs_ne_nil (l : List Char) (h : ∃ c ∈ l, isPyWs c = false) :
    stripWs l ≠ [] := by
  unfold stripWs
  intro hnil
  have h2 : (l.dropWhile isPyWs).reverse.dropWhile isPyWs = [] := by
    cases hdw : (l.dropWhile isPyWs).reverse.dropWhile isPyWs
    · rfl
    · rw [hdw] at hnil
      simp at hnil
  rw [List.dropWhile_eq_nil_iff] at h2
  rcases exists_nonWs_dropWhile l h with ⟨c, hc, hcw⟩
  have := h2 c (by simpa using hc)
  rw [hcw] at this
  exact Bool.false_ne_true this

theorem splitWsGo_ne_nil (cs : List Char) : ∀ cur : List Char,
    (cur ≠ [] ∨ ∃ c ∈ cs, isPyWs c = false) → splitWsGo cur cs ≠ [] := by
  induction cs with
  | nil =>
    intro cur h
    rcases h with h | h
    · simpa [splitWsGo] using h
    · simpa using h
  | cons a as ih =>
    intro cur h
    unfold splitWsGo
    cases ha : isPyWs a with
    | true =>
      simp only [ha, if_true]
      by_cases hcur : cur = []
      · subst hcur
        simp only [if_pos rfl]
        apply ih
        right
        rcases h with h | ⟨c, hc, hcw⟩
        · exact absurd rfl h
        · rcases List.mem_cons.mp hc with rfl | hmem
          · rw [ha] at hcw
            exact absurd hcw (by simp)
          · exact ⟨c, hmem, hcw⟩
      · simp [hcur]
    | false =>
      simp only [ha, Bool.false_eq_true, if_false]
      exact ih (a :: cur) (Or.inl (by simp))

theorem splitWs_ne_nil (l : List Char) (h : ∃ c ∈ l, isPyWs c = false) :
    splitWs l ≠ [] :=
  splitWsGo_ne_nil l [] (Or.inr h)

theorem string_mk_ne_empty (l : List Char) (h : l ≠ []) : String.mk l ≠ "" := by
  intro he
  apply h
  have : (String.mk l).data = ("" : String).data := by rw [he]
  simpa using this

theorem nameOf_entry (t u : String) : nameOf [("name", t), ("wikipedia_url", u)] = t := by
  simp [nameOf, List.lookup]

theorem placesLoop_spec (es : List OverpassElement) : ∀ places seen,
    places.length = seen.length → places.length < 5 →
    (placesLoop es places seen).map nameOf = places.map nameOf ++ amendedC2_go seen es ∧
    (placesLoop es places seen).length ≤ 5 := by
  induction es with
  | nil =>
    intro places seen hlen hlt
    constructor
    · simp [placesLoop, amendedC2_go]
    · unfold placesLoop
      omega
  | cons e rest ih =>
    intro places seen hlen hlt
    unfold placesLoop amendedC2_go
    cases hname : e.tags.lookup "name" with
    | none =>
      dsimp only
      rw [if_neg (by omega)]
      exact ih places seen hlen hlt
    | some name =>
      dsimp only
      by_cases hcond : name ≠ "" ∧ ¬ (seen.contains name = true)
      · rw [if_pos hcond, if_pos hcond]
        by_cases hfive :
            (places ++ [[("name", String.mk (stripWs name.toList)),
              ("wikipedia_url", generate_wikipedia_url name e.tags)]]).length ≥ 5
        · rw [if_pos hfive]
          have hfive' : seen.length + 1 ≥ 5 := by
            rw [List.length_append] at hfive
            simpa [hlen] using hfive
          rw [if_pos hfive']
          constructor
          · simp [nameOf_entry]
          · rw [List.length_append]
            simp only [List.length_singleton]
            omega
        · rw [if_neg hfive]
          have hfive' : ¬ (seen.length + 1 ≥ 5) := by
            rw [List.length_append] at hfive
            simp only [List.length_singleton] at hfive
            omega
          rw [if_neg hfive']
          have hlen' :
              (places ++ [[("name", String.mk (stripWs name.toList)),
                ("wikipedia_url", generate_wikipedia_url name e.tags)]]).length =
              (seen ++ [String.mk (stripWs name.toList)]).length := by
            simp [hlen]
          have hlt' :
              (places ++ [[("name", String.mk (stripWs name.toList)),
                ("wikipedia_url", generate_wikipedia_url name e.tags)]]).length < 5 := by
            rw [List.length_append]
            simp only [List.length_singleton]
            omega
          rcases ih _ _ hlen' hlt' with ⟨ih1, ih2⟩
          constructor
          · rw [ih1]
            simp [nameOf_entry]
          · exact ih2
      · rw [if_neg hcond, if_neg hcond, if_neg (by omega)]
        exact ih places seen hlen hlt

theorem placesLoop_keys (es : List OverpassElement) : ∀ places seen,
    (∀ pd ∈ places, pd.map Prod.fst = ["name", "wikipedia_url"]) →
    ∀ pd ∈ placesLoop es places seen, pd.map Prod.fst = ["name", "wikipedia_url"] := by
  induction es with
  | nil =>
    intro places seen hinv
    simpa [placesLoop] using hinv
  | cons e rest ih =>
    intro places seen hinv
    unfold placesLoop
    cases hname : e.tags.lookup "name" with
    | none =>
      dsimp only
      split
      · exact hinv
      · exact ih places seen hinv
    | some name =>
      dsimp only
      have hinv' : ∀ pd ∈ places ++ [[("name", String.mk (stripWs name.toList)),
          ("wikipedia_url", generate_wikipedia_url name e.tags)]],
          pd.map Prod.fst = ["name", "wikipedia_url"] := by
        intro pd hpd
        rcases List.mem_append.mp hpd with hmem | hmem
        · exact hinv pd hmem
        · rcases List.mem_singleton.mp hmem with rfl
          rfl
      by_cases hcond : name ≠ "" ∧ ¬ (seen.contains name = true)
      · rw [if_pos hcond]
        split
        · exact hinv'
        · exact ih _ _ hinv'
      · rw [if_neg hcond]
        split
        · exact hinv
        · exact ih places seen hinv

theorem round1_zero : round1 0 = 0 := rfl

theorem categoryFromBuilding_spec (tags : List (String × String)) :
    categoryFromBuilding tags =
      (tableBuilding.findSome? (rowMatch tags)).getD "Tourist Attraction" := by
  unfold categoryFromBuilding tableBuilding
  cases h : truthyGet tags "building" with
  | none => simp [rowMatch, List.findSome?, h]
  | some v =>
    simp [rowMatch, List.findSome?, h]
    split_ifs <;> simp_all

theorem categoryFromLeisure_spec (tags : List (String × String)) :
    categoryFromLeisure tags =
      (tableLeisure.findSome? (rowMatch tags)).getD "Tourist Attraction" := by
  unfold categoryFromLeisure tableLeisure
  cases h : truthyGet tags "leisure" with
  | none =>
    simp only [List.findSome?_cons, rowMatch, h]
    exact categoryFromBuilding_spec tags
  | some v =>
    simp only [List.findSome?_cons, rowMatch, h]
    split_ifs <;> simp_all [categoryFromBuilding_spec tags]

theorem categoryFromAmenity_spec (tags : List (String × String)) :
    categoryFromAmenity tags =
      (tableAmenity.findSome? (rowMatch tags)).getD "Tourist Attraction" := by
  unfold categoryFromAmenity tableAmenity
  cases h : truthyGet tags "amenity" with
  | none =>
    simp only [List.findSome?_cons, rowMatch, h]
    exact categoryFromLeisure_spec tags
  | some v =>
    simp only [List.findSome?_cons, rowMatch, h]
    split_ifs <;> simp_all [categoryFromLeisure_spec tags, tableLeisure]

theorem categoryFromHistoric_spec (tags : List (String × String)) :
    categoryFromHistoric tags =
      (tableHistoric.findSome? (rowMatch tags)).getD "Tourist Attraction" := by
  unfold categoryFromHistoric tableHistoric
  cases h : truthyGet tags "historic" with
  | none =>
    simp only [List.findSome?_cons, rowMatch, h]
    exact categoryFromAmenity_spec tags
  | some v =>
    simp only [List.findSome?_cons, rowMatch, h]
    simp

theorem get_place_category_eq_spec (tags : List (String × String)) :
    get_place_category tags = specCategory tags := by
  unfold get_place_category specCategory categoryTable
  cases h : truthyGet tags "tourism" with
  | none =>
    simp only [List.findSome?_cons, rowMatch, h]
    exact categoryFromHistoric_spec tags
  | some v =>
    simp only [List.findSome?_cons, rowMatch, h]
    split_ifs <;> simp_all [categoryFromHistoric_spec tags, tableHistoric]

/-
Claim theorems.
-/

/-- Claim C1 (code_bug evidence): with geocoding Found, an Error from the
points-of-interest lookup — or even a successful lookup with an empty
result list — is NOT absorbed: tourism_agent raises, because the local
`places` is only assigned on the success-with-nonempty-results path but is
always referenced in the returned dict. A failed weather lookup, by
contrast, is absorbed exactly as the claim says: success=true with only
the weather sentence missing. -/
theorem C1_poi_branch_not_absorbed :
    tourism_agent
        ⟨fun _ => Except.ok [⟨12, 77, some "Bengaluru, India"⟩],
         fun _ _ => Except.ok ⟨some ⟨some 25⟩, some ⟨some [10], some [50], some [5]⟩⟩,
         fun _ _ => Except.error "HTTPError: 504 Server Error"⟩
        "weather in paris" =
      Except.error "UnboundLocalError: local variable 'places' referenced before assignment" ∧
    tourism_agent
        ⟨fun _ => Except.ok [⟨12, 77, some "Bengaluru, India"⟩],
         fun _ _ => Except.ok ⟨some ⟨some 25⟩, some ⟨some [10], some [50], some [5]⟩⟩,
         fun _ _ => Except.ok []⟩
        "weather in paris" =
      Except.error "UnboundLocalError: local variable 'places' referenced before assignment" ∧
    tourism_agent
        ⟨fun _ => Except.ok [⟨12, 77, some "Bengaluru, India"⟩],
         fun _ _ => Except.error "ReadTimeout",
         fun _ _ => Except.ok [⟨[("name", "Cubbon Park"), ("leisure", "park")]⟩]⟩
        "weather in paris" =
      Except.ok ⟨true, "In Bengaluru, India these are the places you can go,\nCubbon Park",
        some "Bengaluru, India", some (12, 77),
        some [[("name", "Cubbon Park"),
               ("wikipedia_url", "https://en.wikipedia.org/wiki/Cubbon_Park")]]⟩ :=
  ⟨rfl, rfl, rfl⟩

/-- Claim C2 (counterexample): two provider elements with the same raw name
"Taj " (trailing space) both pass the dedup test, because membership is
checked on the raw name against the set of trimmed names; the result holds
two entries with the same trimmed name "Taj", contradicting the claim. -/
theorem C2_counterexample_dup_trimmed :
    placesNames (places_agent (Except.ok dupNameElements)) = ["Taj", "Taj"] := rfl

/-- Claim C2 (amended): places_agent returns at most 5 entries, in
first-seen provider order, and keeps an element exactly when its raw name
is non-empty and differs from the trimmed names of all previously kept
entries (storing the trimmed name) — so two entries may share a trimmed
name when the later raw name differs, e.g. by surrounding whitespace. -/
theorem C2_dedup_amended (elements : List OverpassElement) :
    placesNames (places_agent (Except.ok elements)) = amendedC2_names elements ∧
    (placesNames (places_agent (Except.ok elements))).length ≤ 5 := by
  have h := placesLoop_spec elements [] [] rfl (by decide)
  have htake : (placesLoop elements [] []).take 5 = placesLoop elements [] [] :=
    List.take_of_length_le h.2
  have hmap : placesNames (places_agent (Except.ok elements)) =
      (placesLoop elements [] []).map nameOf := by
    simp [places_agent, placesNames, htake, nameOf]
  constructor
  · rw [hmap, h.1]
    simp [amendedC2_names]
  · rw [hmap, List.length_map]
    exact h.2

/-- Witness for C2 (amended) at the concrete duplicate-name element list. -/
theorem C2_witness :
    placesNames (places_agent (Except.ok dupNameElements)) = amendedC2_names dupNameElements ∧
    (placesNames (places_agent (Except.ok dupNameElements))).length ≤ 5 :=
  C2_dedup_amended dupNameElements

/-- Claim C8 (counterexample): the entry kept for a museum element carries
no category key at all — places_agent never invokes get_place_category —
although the category table would assign "Museum & Gallery" to its tags. -/
theorem C8_counterexample_no_category_key :
    (placesEntries (places_agent (Except.ok [museumElement]))).map
        (fun pd => pd.lookup "category") = [none] ∧
    get_place_category museumElement.tags = "Museum & Gallery" := ⟨rfl, rfl⟩

/-- Claim C8 (amended): get_place_category derives the category from the
fixed table in priority order — tourism sub-mappings first, then historic,
amenity, leisure, building, defaulting to "Tourist Attraction" — but
places_agent does not attach it: every kept entry has exactly the keys
name and wikipedia_url. -/
theorem C8_category_table_amended :
    (∀ tags, get_place_category tags = specCategory tags) ∧
    (∀ elements pd, pd ∈ placesEntries (places_agent (Except.ok elements)) →
      pd.map Prod.fst = ["name", "wikipedia_url"]) := by
  constructor
  · exact get_place_category_eq_spec
  · intro elements pd hpd
    have hpd' : pd ∈ (placesLoop elements [] []).take 5 := by
      simpa [places_agent, placesEntries] using hpd
    exact placesLoop_keys elements [] [] (by intro pd h; cases h) pd
      (List.take_subset 5 _ hpd')

/-- Witness for C8 (amended): the table category of the museum tags, and
the key list of the concrete kept entry. -/
theorem C8_witness :
    get_place_category museumElement.tags = specCategory museumElement.tags ∧
    ([("name", "City Museum"),
      ("wikipedia_url", "https://en.wikipedia.org/wiki/City_Museum")] :
        List (String × String)).map Prod.fst = ["name", "wikipedia_url"] :=
  ⟨C8_category_table_amended.1 museumElement.tags,
   C8_category_table_amended.2 [museumElement]
     [("name", "City Museum"), ("wikipedia_url", "https://en.wikipedia.org/wiki/City_Museum")]
     (by decide)⟩

/-- Claim C9: geo_agent maps each provider outcome to exactly one result:
an empty candidate list to not_found, a raised transport/timeout/non-2xx
failure to error carrying the cause, and a non-empty list to found with
the first candidate's display name when present, else the input place
name. -/
theorem C9_geo_agent_outcomes (place_name : String)
    (resp : Except String (List NominatimItem)) :
    (resp = Except.ok [] → geo_agent place_name resp = GeoResult.notFound) ∧
    (∀ e, resp = Except.error e → geo_agent place_name resp = GeoResult.error e) ∧
    (∀ item rest, resp = Except.ok (item :: rest) →
      geo_agent place_name resp =
        GeoResult.found item.lat item.lon (item.display_name.getD place_name)) :=
  ⟨fun h => by rw [h]; rfl,
   fun e h => by rw [h]; rfl,
   fun item rest h => by rw [h]; rfl⟩

/-- Witness for C9 at concrete responses. -/
theorem C9_witness :
    geo_agent "Paris" (Except.ok []) = GeoResult.notFound ∧
    geo_agent "Paris" (Except.error "ConnectTimeout") = GeoResult.error "ConnectTimeout" ∧
    geo_agent "Paris" (Except.ok [⟨48, 2, none⟩]) = GeoResult.found 48 2 "Paris" :=
  ⟨(C9_geo_agent_outcomes "Paris" (Except.ok [])).1 rfl,
   (C9_geo_agent_outcomes "Paris" (Except.error "ConnectTimeout")).2.1 "ConnectTimeout" rfl,
   (C9_geo_agent_outcomes "Paris" (Except.ok [⟨48, 2, none⟩])).2.2 ⟨48, 2, none⟩ [] rfl⟩

/-- Claim C10: weather_agent reports success for every parsed 2xx body —
with temperature 0 when the current-weather block (or its temperature) is
absent and 0 for precipitation, humidity and wind when their hourly arrays
are absent, each rounded to one decimal — and reports error exactly when
the request or parsing raised. -/
theorem C10_weather_agent_defaults (resp : Except String WeatherJson) :
    (∀ data, resp = Except.ok data → (weather_agent resp).isSuccess = true) ∧
    (∀ data, resp = Except.ok data → data.current_weather = none → data.hourly = none →
      weather_agent resp = WeatherResult.success 0 0 0 0) ∧
    (∀ data cw hd, resp = Except.ok data → data.current_weather = some cw →
      cw.temperature = none → data.hourly = some hd →
      hd.precipitation_probability = none → hd.relativehumidity_2m = none →
      hd.windspeed_10m = none →
      weather_agent resp = WeatherResult.success 0 0 0 0) ∧
    (∀ e, resp = Except.error e → weather_agent resp = WeatherResult.error e) := by
  refine ⟨?_, ?_, ?_, ?_⟩
  · intro data h
    subst h
    simp [weather_agent, WeatherResult.isSuccess]
  · intro data h hcw hh
    subst h
    simp [weather_agent, hcw, hh, round1_zero, listHead0]
  · intro data cw hd h hcw ht hh hp hr hw
    subst h
    simp [weather_agent, hcw, ht, hh, hp, hr, hw, round1_zero, listHead0]
  · intro e h
    subst h
    rfl

/-- Claim C3: whenever tourism_agent returns a result dictionary (rather
than raising), its success flag is false exactly when geocoding did not
resolve the place (NotFound or Error); once geocoding is Found, every
returned result has success=true regardless of the weather or POI outcome. -/
theorem C3_success_iff_geo (P : Providers) (input pn : String) (r : TourismResult)
    (hx : extract_place_name input = some pn)
    (hr : tourism_agent P input = Except.ok r) :
    r.success = false ↔ (geo_agent pn (P.geo pn)).isFound = false := by
  unfold tourism_agent at hr
  rw [hx] at hr
  dsimp only at hr
  cases hg : geo_agent pn (P.geo pn) with
  | notFound =>
    rw [hg] at hr
    dsimp only at hr
    injection hr with hr'
    rw [← hr']
    simp [GeoResult.isFound]
  | error e =>
    rw [hg] at hr
    dsimp only at hr
    injection hr with hr'
    rw [← hr']
    simp [GeoResult.isFound]
  | found lat lon dn =>
    rw [hg] at hr
    dsimp only at hr
    split at hr
    · split at hr
      · injection hr with hr'
        rw [← hr']
        simp [GeoResult.isFound]
      · cases hr
    · cases hr

/-- Witness for C3: a not-found geocoding response with success=false. -/
theorem C3_witness :
    (⟨false, "I don't know if the place '" ++ "Paris" ++
        "' exists. Please try a different location.", none, none, none⟩ :
      TourismResult).success = false ↔
    (geo_agent "Paris"
      ((⟨fun _ => Except.ok [], fun _ _ => Except.error "t", fun _ _ => Except.error "t"⟩ :
        Providers).geo "Paris")).isFound = false :=
  C3_success_iff_geo
    ⟨fun _ => Except.ok [], fun _ _ => Except.error "t", fun _ _ => Except.error "t"⟩
    "weather in paris" "Paris" _ (by decide) rfl

/-- Claim C4 (counterexample): on the empty string, and on whitespace-only
input, extract_place_name raises IndexError (words[-1] on the empty word
list, modelled as none) instead of returning a non-empty string. -/
theorem C4_counterexample_empty_input :
    extract_place_name "" = none ∧ extract_place_name "   " = none := ⟨by decide, by decide⟩

/-- Claim C4 (amended): for every input containing at least one
non-whitespace character, extract_place_name terminates without raising and
returns a non-empty string; the empty and whitespace-only inputs instead
hit words[-1] on an empty list and raise IndexError. -/
theorem C4_extraction_total_amended (s : String)
    (h : s.toList.any (fun c => !isPyWs c) = true) :
    (extract_place_name s).isSome = true ∧ (extract_place_name s).getD "" ≠ "" := by
  have hex : ∃ c ∈ s.toList, isPyWs c = false := by
    rcases List.any_eq_true.mp h with ⟨c, hc, hcb⟩
    exact ⟨c, hc, by simpa using hcb⟩
  unfold extract_place_name
  dsimp only
  cases hpat : firstPatternCapture patterns (List.map asciiLower s.toList) with
  | some g =>
    dsimp only
    refine ⟨rfl, ?_⟩
    rw [Option.getD_some]
    by_cases hpl : (pyTitle (joinWith [' '] (splitWs (removeStopWords (stripWs g))))) = []
    · rw [if_pos hpl]
      exact string_mk_ne_empty _ (stripWs_ne_nil s.toList hex)
    · rw [if_neg hpl]
      exact string_mk_ne_empty _ hpl
  | none =>
    dsimp only
    by_cases hpw : ((splitWs s.toList).filter capQualified).map stripPunct ≠ []
    · rw [if_pos hpw]
      refine ⟨rfl, ?_⟩
      rw [Option.getD_some]
      cases hlist : ((splitWs s.toList).filter capQualified).map stripPunct with
      | nil => exact absurd hlist hpw
      | cons p rest =>
        have hp : p ≠ [] := by
          have hmem : p ∈ ((splitWs s.toList).filter capQualified).map stripPunct := by
            rw [hlist]
            exact List.mem_cons_self p rest
          rcases List.mem_map.mp hmem with ⟨w, hwmem, rfl⟩
          have hq : capQualified w = true := List.of_mem_filter hwmem
          have hq' : amendedCapQualified w = true := by
            rw [← capQualified_eq_amended]
            exact hq
          exact stripPunct_ne_nil_of_qualified w hq'
        apply string_mk_ne_empty
        exact joinWith_ne_nil [' '] p (rest.take 2) hp
    · rw [if_neg hpw]
      cases hlast : (splitWs s.toList).getLast? with
      | none =>
        exfalso
        exact splitWs_ne_nil s.toList hex (List.getLast?_eq_none.mp hlast)
      | some w =>
        dsimp only
        by_cases hlw : stripPunct w ≠ [] ∧ (stripPunct w).length > 2 ∧
            isAsciiUpper ((stripPunct w).headD ' ') = true
        · rw [if_pos hlw]
          refine ⟨rfl, ?_⟩
          rw [Option.getD_some]
          exact string_mk_ne_empty _ (pyTitle_ne_nil _ hlw.1)
        · rw [if_neg hlw]
          cases hfind : common_places.find?
              (fun kv => isSubstrOf kv.1 (List.map asciiLower s.toList)) with
          | some kv =>
            refine ⟨rfl, ?_⟩
            rw [Option.getD_some]
            have hmem := List.mem_of_find?_eq_some hfind
            have hall : ∀ kv ∈ common_places, kv.2 ≠ "" := by decide
            exact hall kv hmem
          | none =>
            refine ⟨rfl, ?_⟩
            rw [Option.getD_some]
            exact string_mk_ne_empty _ (pyTitle_ne_nil _ (stripWs_ne_nil s.toList hex))

/-- Witness for C4 (amended) at a concrete input. -/
theorem C4_witness :
    ((" Bengaluru " : String).toList.any (fun c => !isPyWs c) = true) ∧
    ((extract_place_name " Bengaluru ").isSome = true ∧
      (extract_place_name " Bengaluru ").getD "" ≠ "") :=
  ⟨by decide, C4_extraction_total_amended " Bengaluru " (by decide)⟩

/-- Claim C5: when geocoding reports NotFound or Error, tourism_agent
returns success=false with the message naming the extracted place, and the
weather and POI providers are never invoked — the result is independent of
the weather and places oracles. -/
theorem C5_geo_failure (P : Providers) (input pn : String)
    (hx : extract_place_name input = some pn)
    (hgeo : (geo_agent pn (P.geo pn)).isFound = false) :
    tourism_agent P input =
      Except.ok ⟨false, "I don't know if the place '" ++ pn ++
        "' exists. Please try a different location.", none, none, none⟩ ∧
    (∀ w p w' p',
      tourism_agent ⟨P.geo, w, p⟩ input = tourism_agent ⟨P.geo, w', p'⟩ input) := by
  constructor
  · unfold tourism_agent
    rw [hx]
    dsimp only
    cases hg : geo_agent pn (P.geo pn) with
    | found lat lon dn =>
      rw [hg] at hgeo
      simp [GeoResult.isFound] at hgeo
    | notFound => rfl
    | error e => rfl
  · intro w p w' p'
    unfold tourism_agent
    rw [hx]
    dsimp only
    cases hg : geo_agent pn (P.geo pn) with
    | found lat lon dn =>
      rw [hg] at hgeo
      simp [GeoResult.isFound] at hgeo
    | notFound => rfl
    | error e => rfl

/-- Witness for C5: the result on a not-found geocode, and its independence
from two different weather/places oracle pairs. -/
theorem C5_witness :
    tourism_agent
        ⟨fun _ => Except.ok [], fun _ _ => Except.error "a", fun _ _ => Except.error "a"⟩
        "weather in paris" =
      Except.ok ⟨false, "I don't know if the place '" ++ "Paris" ++
        "' exists. Please try a different location.", none, none, none⟩ ∧
    tourism_agent
        ⟨fun _ => Except.ok [], fun _ _ => Except.error "a", fun _ _ => Except.error "a"⟩
        "weather in paris" =
      tourism_agent
        ⟨fun _ => Except.ok [],
         fun _ _ => Except.ok ⟨some ⟨some 25⟩, none⟩,
         fun _ _ => Except.ok [⟨[("name", "X")]⟩]⟩
        "weather in paris" :=
  ⟨(C5_geo_failure
      ⟨fun _ => Except.ok [], fun _ _ => Except.error "a", fun _ _ => Except.error "a"⟩
      "weather in paris" "Paris" (by decide) (by decide)).1,
   (C5_geo_failure
      ⟨fun _ => Except.ok [], fun _ _ => Except.error "a", fun _ _ => Except.error "a"⟩
      "weather in paris" "Paris" (by decide) (by decide)).2
     (fun _ _ => Except.error "a") (fun _ _ => Except.error "a")
     (fun _ _ => Except.ok ⟨some ⟨some 25⟩, none⟩)
     (fun _ _ => Except.ok [⟨[("name", "X")]⟩])⟩

/-- Claim C6 (counterexample): "Istanbul Rocks Hard" matches no phrase
pattern; the claim's reading (exclude only the pronoun "I") predicts
"Istanbul Rocks Hard", but the code excludes every word starting with a
capital I and returns "Rocks Hard". -/
theorem C6_counterexample_capital_I :
    firstPatternCapture patterns (("Istanbul Rocks Hard" : String).toList.map asciiLower) =
      none ∧
    claimC6_extract "Istanbul Rocks Hard" = some "Istanbul Rocks Hard" ∧
    extract_place_name "Istanbul Rocks Hard" = some "Rocks Hard" :=
  ⟨by decide, by decide, by decide⟩

/-- Claim C6 (amended): for inputs matching no phrase pattern, when some
word starts with an uppercase letter, is longer than 2 characters and does
not start with the capital letter I, extraction returns the join of the
first 3 such words, each stripped of trailing punctuation. -/
theorem C6_cap_fallback_amended (s : String)
    (hpat : firstPatternCapture patterns (s.toList.map asciiLower) = none)
    (hne : amendedC6_extract s ≠ none) :
    extract_place_name s = amendedC6_extract s := by
  have hfun : capQualified = amendedCapQualified := funext capQualified_eq_amended
  have hpw : ((splitWs s.toList).filter amendedCapQualified).map dropTrailingPunct ≠ [] := by
    intro h0
    apply hne
    unfold amendedC6_extract
    dsimp only
    rw [if_pos h0]
  have hmap : ((splitWs s.toList).filter amendedCapQualified).map stripPunct =
      ((splitWs s.toList).filter amendedCapQualified).map dropTrailingPunct := by
    apply List.map_congr_left
    intro w hw
    exact stripPunct_eq_dropTrailing w (List.of_mem_filter hw)
  unfold extract_place_name amendedC6_extract
  dsimp only
  rw [hpat]
  dsimp only
  rw [hfun, hmap, if_pos hpw, if_neg hpw]

/-- Witness for C6 (amended) at the claim's own example input. -/
theorem C6_witness :
    extract_place_name "I love New York City" = amendedC6_extract "I love New York City" ∧
    extract_place_name "I love New York City" = some "New York City" :=
  ⟨C6_cap_fallback_amended "I love New York City" (by decide) (by decide), by decide⟩

/-- Claim C7 (counterexample): on "going to know york," the captured span
is "know york", which ends in no filler phrase, so the claim's
trailing-strip reading predicts "Know York"; the code removes the filler
"now" as a substring anywhere and returns "K York". -/
theorem C7_counterexample_filler_anywhere :
    claimC7_extract "going to know york," = some "Know York" ∧
    extract_place_name "going to know york," = some "K York" := ⟨by decide, by decide⟩

/-- Claim C7 (amended): for inputs matching a phrase pattern, extraction
returns the span captured by the first matching pattern against the
lowercased input, with each filler phrase removed wherever it occurs in the
span (substring replacement in the fixed list order, trimming after each),
whitespace collapsed and words title-cased; the trimmed raw input is
returned when the cleaned span is empty. -/
theorem C7_pattern_stage_amended (s : String)
    (h : patterns.findSome? (fun p => searchCapture p (s.toList.map asciiLower)) ≠ none) :
    extract_place_name s = amendedC7_extract s := by
  unfold extract_place_name amendedC7_extract
  rw [← firstPatternCapture_eq_findSome] at h
  dsimp only
  rw [← firstPatternCapture_eq_findSome]
  cases hc : firstPatternCapture patterns (List.map asciiLower s.toList) with
  | none => exact absurd hc h
  | some g => rfl

/-- Witness for C7 (amended) at a concrete pattern-matching input. -/
theorem C7_witness :
    extract_place_name "weather in paris" = amendedC7_extract "weather in paris" ∧
    extract_place_name "weather in paris" = some "Paris" :=
  ⟨C7_pattern_stage_amended "weather in paris" (by decide), by decide⟩

/-- Witness for C10 at concrete responses. -/
theorem C10_witness :
    weather_agent (Except.ok ⟨none, none⟩) = WeatherResult.success 0 0 0 0 ∧
    (weather_agent (Except.ok ⟨none, none⟩)).isSuccess = true ∧
    weather_agent (Except.error "JSONDecodeError") = WeatherResult.error "JSONDecodeError" :=
  ⟨(C10_weather_agent_defaults (Except.ok ⟨none, none⟩)).2.1 ⟨none, none⟩ rfl rfl rfl,
   (C10_weather_agent_defaults (Except.ok ⟨none, none⟩)).1 ⟨none, none⟩ rfl,
   (C10_weather_agent_defaults (Except.error "JSONDecodeError")).2.2.2 "JSONDecodeError" rfl⟩

end Tourism








